import Mathlib

/-
Formal model of the UpkkCS2Browser-Client desktop core, shallowly embedded
from `src/desktop/src-tauri/src/lib.rs` (the A2S_INFO game-server query
client) and `src/desktop/src-tauri/src/secure_storage.rs` (the device-bound
encrypted credential vault), together with theorems settling the claims of
the specification.

Modelling conventions:
 - Rust byte slices are `List Nat` with every element `< 256`; `u8` reads
   are `List.getD _ _ 0`; `i32` fields are `Int` (all parsed values fit).
 - IO effects (socket, filesystem, OS randomness, system clock) are passed
   in explicitly as environment records; each fallible step carries the
   error string the Rust code would interpolate.  Error payloads produced
   by external crates (io::Error, serde, base64, aead) are opaque, so they
   appear as environment-supplied or fixed strings; no claim depends on
   their exact text.
 - External cryptographic crates (`aes_gcm`, `sha2`) are parameters
   (`AeadCipher`, a `sha : List Nat → List Nat` function); theorems that
   need their documented behaviour (AEAD decryption inverts encryption,
   SHA-256 yields 32 bytes) take it as an explicit hypothesis, discharged
   on concrete toy instances in the witnesses.  `base64` (STANDARD engine)
   and UTF-8 decoding are implemented concretely.
 - Rust `String::from_utf8_lossy` is `utf8Lossy` (WHATWG replacement
   decoding); `String::from_utf8` validity is `isValidUtf8`.
 - A Rust function that can panic (slice indexing out of range) is embedded
   with `Option`, `none` marking the panic.
-/

/-! ## UTF-8 decoding (String::from_utf8_lossy and String::from_utf8) -/

/-- Replacement-character decoding of a UTF-8 byte list, following the
WHATWG algorithm used by Rust's `String::from_utf8_lossy`.  The fuel
argument only drives the recursion; each step consumes at least one byte,
so fuel equal to the list length (as `utf8Lossy` supplies) is enough and
the zero-fuel branch is unreachable. -/
def utf8LossyFuel : Nat → List Nat → List Char
  | 0, _ => []
  | _, [] => []
  | fuel + 1, b :: rest =>
    if b < 0x80 then Char.ofNat b :: utf8LossyFuel fuel rest
    else if 0xC2 ≤ b ∧ b ≤ 0xDF then
      match rest with
      | [] => [Char.ofNat 0xFFFD]
      | b1 :: rest1 =>
        if 0x80 ≤ b1 ∧ b1 ≤ 0xBF then
          Char.ofNat ((b - 0xC0) * 64 + (b1 - 0x80)) :: utf8LossyFuel fuel rest1
        else Char.ofNat 0xFFFD :: utf8LossyFuel fuel (b1 :: rest1)
    else if 0xE0 ≤ b ∧ b ≤ 0xEF then
      match rest with
      | [] => [Char.ofNat 0xFFFD]
      | b1 :: rest1 =>
        if (if b = 0xE0 then 0xA0 else 0x80) ≤ b1 ∧ b1 ≤ (if b = 0xED then 0x9F else 0xBF) then
          match rest1 with
          | [] => [Char.ofNat 0xFFFD]
          | b2 :: rest2 =>
            if 0x80 ≤ b2 ∧ b2 ≤ 0xBF then
              Char.ofNat ((b - 0xE0) * 4096 + (b1 - 0x80) * 64 + (b2 - 0x80)) :: utf8LossyFuel fuel rest2
            else Char.ofNat 0xFFFD :: utf8LossyFuel fuel (b2 :: rest2)
        else Char.ofNat 0xFFFD :: utf8LossyFuel fuel (b1 :: rest1)
    else if 0xF0 ≤ b ∧ b ≤ 0xF4 then
      match rest with
      | [] => [Char.ofNat 0xFFFD]
      | b1 :: rest1 =>
        if (if b = 0xF0 then 0x90 else 0x80) ≤ b1 ∧ b1 ≤ (if b = 0xF4 then 0x8F else 0xBF) then
          match rest1 with
          | [] => [Char.ofNat 0xFFFD]
          | b2 :: rest2 =>
            if 0x80 ≤ b2 ∧ b2 ≤ 0xBF then
              match rest2 with
              | [] => [Char.ofNat 0xFFFD]
              | b3 :: rest3 =>
                if 0x80 ≤ b3 ∧ b3 ≤ 0xBF then
                  Char.ofNat ((b - 0xF0) * 262144 + (b1 - 0x80) * 4096 + (b2 - 0x80) * 64 + (b3 - 0x80))
                    :: utf8LossyFuel fuel rest3
                else Char.ofNat 0xFFFD :: utf8LossyFuel fuel (b3 :: rest3)
            else Char.ofNat 0xFFFD :: utf8LossyFuel fuel (b2 :: rest2)
        else Char.ofNat 0xFFFD :: utf8LossyFuel fuel (b1 :: rest1)
    else Char.ofNat 0xFFFD :: utf8LossyFuel fuel rest

/-- Rust `String::from_utf8_lossy(bytes).to_string()`. -/
def utf8Lossy (bs : List Nat) : String := String.mk (utf8LossyFuel bs.length bs)

/-- Rust `String::from_utf8` succeeds exactly on valid UTF-8. -/
def isValidUtf8 : List Nat → Bool
  | [] => true
  | b :: rest =>
    if b < 0x80 then isValidUtf8 rest
    else if 0xC2 ≤ b ∧ b ≤ 0xDF then
      match rest with
      | b1 :: rest1 => decide (0x80 ≤ b1 ∧ b1 ≤ 0xBF) && isValidUtf8 rest1
      | [] => false
    else if 0xE0 ≤ b ∧ b ≤ 0xEF then
      match rest with
      | b1 :: b2 :: rest2 =>
        decide ((if b = 0xE0 then 0xA0 else 0x80) ≤ b1 ∧ b1 ≤ (if b = 0xED then 0x9F else 0xBF)) &&
          (decide (0x80 ≤ b2 ∧ b2 ≤ 0xBF) && isValidUtf8 rest2)
      | _ => false
    else if 0xF0 ≤ b ∧ b ≤ 0xF4 then
      match rest with
      | b1 :: b2 :: b3 :: rest3 =>
        decide ((if b = 0xF0 then 0x90 else 0x80) ≤ b1 ∧ b1 ≤ (if b = 0xF4 then 0x8F else 0xBF)) &&
          (decide (0x80 ≤ b2 ∧ b2 ≤ 0xBF) && (decide (0x80 ≤ b3 ∧ b3 ≤ 0xBF) && isValidUtf8 rest3))
      | _ => false
    else false

/-! ## Hex encoding (hex crate, and Rust format specifier 02X) -/

/-- Lowercase hex digit, as produced by `hex::encode`. -/
def hexDigitLower (n : Nat) : Char := if n < 10 then Char.ofNat (48 + n) else Char.ofNat (87 + n)

/-- Characters of `hex::encode(bs)`: two lowercase hex digits per byte. -/
def hexEncodeChars : List Nat → List Char
  | [] => []
  | b :: t => hexDigitLower (b / 16) :: hexDigitLower (b % 16) :: hexEncodeChars t

/-- Rust `hex::encode`. -/
def hexEncode (bs : List Nat) : String := String.mk (hexEncodeChars bs)

/-- Uppercase hex digit, as produced by the format specifier 02X. -/
def hexDigitUpper (n : Nat) : Char := if n < 10 then Char.ofNat (48 + n) else Char.ofNat (55 + n)

/-- Rust two-digit uppercase hex of a byte, the 02X format. -/
def hexByteUpper (b : Nat) : String := String.mk [hexDigitUpper (b / 16), hexDigitUpper (b % 16)]

/-- Is the character one of 0-9 or a-f? -/
def isLowerHexDigit (c : Char) : Bool :=
  (decide (48 ≤ c.toNat) && decide (c.toNat ≤ 57)) ||
    (decide (97 ≤ c.toNat) && decide (c.toNat ≤ 102))

/-- Is the string a well-formed 32-character lowercase hex string? -/
def isHex32Str (s : String) : Bool := (s.length == 32) && s.toList.all isLowerHexDigit

/-- UTF-8 encoding of one character. -/
def charUtf8Bytes (c : Char) : List Nat :=
  if c.toNat < 0x80 then [c.toNat]
  else if c.toNat < 0x800 then [0xC0 + c.toNat / 64, 0x80 + c.toNat % 64]
  else if c.toNat < 0x10000 then
    [0xE0 + c.toNat / 4096, 0x80 + c.toNat / 64 % 64, 0x80 + c.toNat % 64]
  else
    [0xF0 + c.toNat / 262144, 0x80 + c.toNat / 4096 % 64, 0x80 + c.toNat / 64 % 64,
     0x80 + c.toNat % 64]

/-- UTF-8 bytes of a string; Rust `str::as_bytes`. -/
def strBytes (s : String) : List Nat := (s.toList.map charUtf8Bytes).join

/-- Rust `str::trim`: strip leading and trailing whitespace.  (Rust trims
Unicode White_Space; the common ASCII whitespace of `Char.isWhitespace`
suffices for every value this development evaluates.) -/
def rustTrim (s : String) : String :=
  String.mk (((s.toList.dropWhile Char.isWhitespace).reverse.dropWhile Char.isWhitespace).reverse)

/-! ## Base64 (base64 crate, STANDARD engine: canonical padding) -/

/-- The standard base64 alphabet. -/
def b64Alphabet : List Char :=
  String.toList "ABCDEFGHIJKLMNOPQRSTUVWXYZabcdefghijklmnopqrstuvwxyz0123456789+/"

/-- Value of the base64 digit at alphabet position search. -/
def b64ValAux : List Char → Nat → Char → Option Nat
  | [], _, _ => none
  | a :: t, i, c => if a == c then some i else b64ValAux t (i + 1) c

/-- Decode one base64 digit; `none` for characters outside the alphabet. -/
def b64Val (c : Char) : Option Nat := b64ValAux b64Alphabet 0 c

/-- The base64 digit for a 6-bit value. -/
def b64Char (n : Nat) : Char := b64Alphabet.getD n (Char.ofNat 61)

/-- Standard base64 encoding with padding, as the base64 crate STANDARD
engine produces. -/
def base64Encode : List Nat → List Char
  | [] => []
  | [b0] => [b64Char (b0 / 4), b64Char (b0 % 4 * 16), Char.ofNat 61, Char.ofNat 61]
  | [b0, b1] => [b64Char (b0 / 4), b64Char (b0 % 4 * 16 + b1 / 16), b64Char (b1 % 16 * 4), Char.ofNat 61]
  | b0 :: b1 :: b2 :: rest =>
    b64Char (b0 / 4) :: b64Char (b0 % 4 * 16 + b1 / 16) :: b64Char (b1 % 16 * 4 + b2 / 64) ::
      b64Char (b2 % 64) :: base64Encode rest

/-- Standard base64 decoding with mandatory canonical padding and rejection
of set trailing bits, as the base64 crate STANDARD engine checks. -/
def base64Decode : List Char → Option (List Nat)
  | [] => some []
  | c0 :: c1 :: c2 :: c3 :: rest =>
    if rest.isEmpty && (c2 == Char.ofNat 61 && c3 == Char.ofNat 61) then
      match b64Val c0, b64Val c1 with
      | some v0, some v1 => if v1 % 16 = 0 then some [v0 * 4 + v1 / 16] else none
      | _, _ => none
    else if rest.isEmpty && c3 == Char.ofNat 61 then
      match b64Val c0, b64Val c1, b64Val c2 with
      | some v0, some v1, some v2 =>
        if v2 % 4 = 0 then some [v0 * 4 + v1 / 16, v1 % 16 * 16 + v2 / 4] else none
      | _, _, _ => none
    else
      match b64Val c0, b64Val c1, b64Val c2, b64Val c3, base64Decode rest with
      | some v0, some v1, some v2, some v3, some tail =>
        some ((v0 * 4 + v1 / 16) :: (v1 % 16 * 16 + v2 / 4) :: (v2 % 4 * 64 + v3) :: tail)
      | _, _, _, _, _ => none
  | _ => none

/-! ## A2S_INFO query client (lib.rs) -/

/-- The fixed 25-byte A2S_INFO query packet constant from lib.rs. -/
def A2S_INFO : List Nat :=
  [0xFF, 0xFF, 0xFF, 0xFF, 0x54, 0x53, 0x6F, 0x75,
   0x72, 0x63, 0x65, 0x20, 0x45, 0x6E, 0x67, 0x69,
   0x6E, 0x65, 0x20, 0x51, 0x75, 0x65, 0x72, 0x79,
   0x00]

/-- A2S query result structure, mirroring `struct A2SQueryResult`. -/
structure A2SQueryResult where
  success : Bool
  error : Option String
  ip : String
  port : String
  name : String
  map_name : String
  game : String
  players : Int
  max_players : Int
  bots : Int
  real_players : Int
  server_type : String
  environment : String
  password : Bool
  vac : Bool
  version : String
  deriving DecidableEq, Repr

/-- The `Default` impl for `A2SQueryResult`. -/
def A2SQueryResult.default : A2SQueryResult :=
  { success := false, error := none, ip := "", port := "", name := "", map_name := "",
    game := "", players := 0, max_players := 0, bots := 0, real_players := 0,
    server_type := "", environment := "", password := false, vac := false, version := "" }

/-- The scan loop of `read_cstring`: the first index `≥ e` holding a zero
byte, or `data.len()` if there is none. -/
def cstrEnd (data : List Nat) (e : Nat) : Nat :=
  if h : e < data.length then
    if data.getD e 0 ≠ 0 then cstrEnd data (e + 1) else e
  else e
termination_by data.length - e
decreasing_by omega

/-- Rust `read_cstring(data, start)`: lossy-decode the bytes from `start`
up to the first zero byte and return the decoded string with the position
one past the terminator.  `none` models the Rust panic when `start` lies
beyond `data.len()` (slice range out of bounds). -/
def read_cstring (data : List Nat) (start : Nat) : Option (String × Nat) :=
  if start ≤ data.length then
    some (utf8Lossy ((data.drop start).take (cstrEnd data start - start)), cstrEnd data start + 1)
  else none

/-- Server-type byte decoding from the `match buf[pos]` in `a2s_query`. -/
def serverTypeStr (c : Nat) : String :=
  if c = 0x64 then "dedicated"
  else if c = 0x6C then "non-dedicated"
  else if c = 0x70 then "sourcetv"
  else String.mk [Char.ofNat c]

/-- Environment byte decoding from the `match buf[pos]` in `a2s_query`. -/
def environmentStr (c : Nat) : String :=
  if c = 0x6C then "Linux"
  else if c = 0x77 then "Windows"
  else if c = 0x6D ∨ c = 0x6F then "Mac"
  else String.mk [Char.ofNat c]

/-- The player-count sanitization and `real_players` computation at the end
of `a2s_query` (the ResponseSanitizer of the specification). -/
def sanitize_result (r : A2SQueryResult) : A2SQueryResult :=
  let r1 := if r.max_players > 67 then { r with players := 0, max_players := 0, bots := 0 } else r
  let rp := r1.players - r1.bots
  { r1 with real_players := if rp < 0 then 0 else rp }

/-- The field-parsing tail of `a2s_query` (lib.rs lines 178-272): starting
at offset 6 of the receive buffer, read the four null-terminated strings,
skip the app id, read the three count bytes, the type/environment bytes,
the two flag bytes and the version string, each guarded against
`buf.len()`; then sanitize and mark success.  `none` is the Rust panic
when a string read starts past the end of the buffer. -/
def parse_info (buf : List Nat) (r0 : A2SQueryResult) : Option A2SQueryResult :=
  match read_cstring buf 6 with
  | none => none
  | some (name, p1) =>
  match read_cstring buf p1 with
  | none => none
  | some (map_name, p2) =>
  match read_cstring buf p2 with
  | none => none
  | some (_folder, p3) =>
  match read_cstring buf p3 with
  | none => none
  | some (game, p4) =>
    let p5 := if p4 + 2 ≤ buf.length then p4 + 2 else p4
    let pmb : Int × Int × Int × Nat :=
      if p5 + 3 ≤ buf.length then
        ((buf.getD p5 0 : Int), (buf.getD (p5 + 1) 0 : Int), (buf.getD (p5 + 2) 0 : Int), p5 + 3)
      else (r0.players, r0.max_players, r0.bots, p5)
    let p6 := pmb.2.2.2
    let stp : String × Nat :=
      if p6 < buf.length then (serverTypeStr (buf.getD p6 0), p6 + 1)
      else (r0.server_type, p6)
    let p7 := stp.2
    let env : String × Nat :=
      if p7 < buf.length then (environmentStr (buf.getD p7 0), p7 + 1)
      else (r0.environment, p7)
    let p8 := env.2
    let pw : Bool × Nat :=
      if p8 < buf.length then (buf.getD p8 0 != 0, p8 + 1) else (r0.password, p8)
    let p9 := pw.2
    let vac : Bool × Nat :=
      if p9 < buf.length then (buf.getD p9 0 != 0, p9 + 1) else (r0.vac, p9)
    let p10 := vac.2
    let version :=
      if p10 < buf.length then ((read_cstring buf p10).map Prod.fst).getD r0.version
      else r0.version
    let r1 := { r0 with
      name := name, map_name := map_name, game := game,
      players := pmb.1, max_players := pmb.2.1, bots := pmb.2.2.1,
      server_type := stp.1, environment := env.1,
      password := pw.1, vac := vac.1, version := version }
    some { sanitize_result r1 with success := true }

/-- The response-type gate of `a2s_query` (line 173): anything other than
0x49 is reported as an invalid response type, otherwise the payload is
parsed. -/
def finishParse (buf : List Nat) (r0 : A2SQueryResult) : Option A2SQueryResult :=
  if buf.getD 4 0 ≠ 0x49 then
    some { r0 with error := some ("Invalid response type: 0x" ++ hexByteUpper (buf.getD 4 0)) }
  else parse_info buf r0

/-- The 0xFFFFFFFF header check of `a2s_query`. -/
def headerOk (buf : List Nat) : Bool :=
  buf.getD 0 0 == 0xFF && (buf.getD 1 0 == 0xFF && (buf.getD 2 0 == 0xFF && buf.getD 3 0 == 0xFF))

/-- Rust `u32::from_le_bytes([a, b, c, d])`. -/
def fromLeBytes (a b c d : Nat) : Nat := a + 256 * b + 65536 * c + 16777216 * d

/-- Rust `u32::to_le_bytes`. -/
def toLeBytes (x : Nat) : List Nat := [x % 256, x / 256 % 256, x / 65536 % 256, x / 16777216 % 256]

/-- Rust `socket.recv(&mut buf)` on a 1400-byte buffer: the first
`min(len, 1400)` bytes are overwritten with the datagram, the rest of the
buffer keeps its previous contents, and the received length is returned. -/
def recvInto (buf : List Nat) (dgram : List Nat) : List Nat × Nat :=
  (dgram.take 1400 ++ buf.drop (min dgram.length 1400), min dgram.length 1400)

/-- Environment of one `a2s_query` call: the outcome of each socket
operation in program order.  `Option String` fields are `some e` when the
operation fails with an io::Error rendering as `e`; a receive either fails
or yields the datagram bytes. -/
structure NetWorld where
  bindErr : Option String
  timeoutErr : Option String
  connectErr : Option String
  send1Err : Option String
  recv1 : Except String (List Nat)
  send2Err : Option String
  recv2 : Except String (List Nat)

/-- Rust `a2s_query(ip, port)` (lib.rs lines 81-273), with the socket
modelled by `w`.  Returns the list of datagrams passed to `send` in order,
and the result (`none` marking the panic path inside parsing). -/
def a2s_query (ip port : String) (w : NetWorld) : List (List Nat) × Option A2SQueryResult :=
  let r0 := { A2SQueryResult.default with ip := ip, port := port }
  match w.bindErr with
  | some e => ([], some { r0 with error := some ("Failed to create socket: " ++ e) })
  | none =>
  match w.timeoutErr with
  | some e => ([], some { r0 with error := some ("Failed to set timeout: " ++ e) })
  | none =>
  match w.connectErr with
  | some e => ([], some { r0 with error := some ("Failed to connect: " ++ e) })
  | none =>
  match w.send1Err with
  | some e => ([A2S_INFO], some { r0 with error := some ("Failed to send query: " ++ e) })
  | none =>
  match w.recv1 with
  | .error e => ([A2S_INFO], some { r0 with error := some ("Failed to receive: " ++ e) })
  | .ok dgram1 =>
    let rb1 := recvInto (List.replicate 1400 0) dgram1
    let buf1 := rb1.1
    let n1 := rb1.2
    if n1 < 6 then ([A2S_INFO], some { r0 with error := some "Response too short" })
    else if ¬ headerOk buf1 then
      ([A2S_INFO], some { r0 with error := some "Invalid response header" })
    else if buf1.getD 4 0 = 0x41 ∧ n1 ≥ 9 then
      let challenge := fromLeBytes (buf1.getD 5 0) (buf1.getD 6 0) (buf1.getD 7 0) (buf1.getD 8 0)
      let challenge_request := A2S_INFO ++ toLeBytes challenge
      match w.send2Err with
      | some e =>
        ([A2S_INFO, challenge_request], some { r0 with error := some ("Failed to send challenge: " ++ e) })
      | none =>
      match w.recv2 with
      | .error e =>
        ([A2S_INFO, challenge_request],
         some { r0 with error := some ("Failed to receive after challenge: " ++ e) })
      | .ok dgram2 =>
        let rb2 := recvInto buf1 dgram2
        let buf2 := rb2.1
        let n2 := rb2.2
        if n2 < 6 then
          ([A2S_INFO, challenge_request], some { r0 with error := some "Response too short after challenge" })
        else if ¬ headerOk buf2 then
          ([A2S_INFO, challenge_request],
           some { r0 with error := some "Invalid response header after challenge" })
        else ([A2S_INFO, challenge_request], finishParse buf2 r0)
    else ([A2S_INFO], finishParse buf1 r0)

/-! ## Secure credential storage (secure_storage.rs) -/

/-- Mirrors `struct StoredCredentials`. -/
structure StoredCredentials where
  steamid64 : String
  securecode : String
  device_id : String
  created_at : Nat
  deriving DecidableEq, Repr

/-- Mirrors `struct CredentialResponse`. -/
structure CredentialResponse where
  success : Bool
  message : String
  steamid64 : Option String
  securecode : Option String
  deriving DecidableEq, Repr

/-- Interface of the external `aes_gcm::Aes256Gcm` cipher for one fixed
key: `encrypt nonce plaintext` and `decrypt nonce ciphertext`, `none`
standing for `aead::Error`.  The vault functions take the keyed cipher as
a parameter; AEAD correctness (decryption inverts encryption) enters the
theorems as an explicit hypothesis. -/
structure AeadCipher where
  encrypt : List Nat → List Nat → Option (List Nat)
  decrypt : List Nat → List Nat → Option (List Nat)

/-- Interface of the external serde_json serialization of
`StoredCredentials`: UTF-8 bytes of the JSON text in both directions. -/
structure SerdeJson where
  toJson : StoredCredentials → Except String (List Nat)
  fromJson : List Nat → Except String StoredCredentials

/-- Rust `derive_key(device_id)`: SHA-256 over the device id and the two
app-specific salts (a sequence of `update` calls hashes the
concatenation), copied into a 32-byte key.  `sha` is the external SHA-256
function. -/
def derive_key (sha : List Nat → List Nat) (device_id : String) : List Nat :=
  sha (strBytes device_id ++ strBytes "xproj-desktop-secure-v1" ++ strBytes "upkk-credential-protection")

/-- Rust `encrypt_data(data, key)` with the random 12-byte nonce passed
explicitly: AEAD-encrypt the plaintext bytes, prepend the nonce and
base64-encode.  The cipher-construction error of `new_from_slice` occurs
exactly when the key is not 32 bytes (never, for keys from `derive_key`);
its crate-formatted payload is modelled by a fixed string. -/
def encrypt_data (aead : AeadCipher) (nonce_bytes : List Nat) (data : List Nat) (key : List Nat) :
    Except String (List Char) :=
  if key.length ≠ 32 then Except.error "Failed to create cipher: InvalidLength"
  else
    match aead.encrypt nonce_bytes data with
    | none => Except.error "Encryption failed: aead::Error"
    | some ciphertext => Except.ok (base64Encode (nonce_bytes ++ ciphertext))

/-- Rust `decrypt_data(encrypted, key)`: base64-decode, require at least
13 bytes, split nonce (12) and ciphertext, AEAD-decrypt, and require valid
UTF-8.  The result is the UTF-8 byte content of the returned Rust String;
crate-formatted error payloads are modelled by fixed strings, the source's
own literals are exact. -/
def decrypt_data (aead : AeadCipher) (encrypted : List Char) (key : List Nat) :
    Except String (List Nat) :=
  if key.length ≠ 32 then Except.error "Failed to create cipher: InvalidLength"
  else
    match base64Decode encrypted with
    | none => Except.error "Base64 decode failed: InvalidByte"
    | some combined =>
      if combined.length < 13 then Except.error "Invalid encrypted data"
      else
        match aead.decrypt (combined.take 12) (combined.drop 12) with
        | none => Except.error "Decryption failed - credentials may be corrupted or from another device"
        | some plaintext =>
          if isValidUtf8 plaintext then Except.ok plaintext
          else Except.error "UTF-8 decode failed: Utf8Error"

/-- Environment of `get_or_create_fallback_device_id`: whether
`dirs::home_dir()` yields a home, the outcome of reading the fallback
file, and the 16 bytes `OsRng` would produce. -/
structure FallbackEnv where
  home : Bool
  fileContent : Option String
  randomBytes : List Nat

/-- Rust `get_or_create_fallback_device_id()`.  Returns the device id and
`some content` when a best-effort write of `content` to the fallback file
is attempted (its success is ignored by the source). -/
def get_or_create_fallback_device_id (env : FallbackEnv) : String × Option String :=
  if env.home then
    match env.fileContent with
    | some existing_id =>
      if (strBytes (rustTrim existing_id)).length = 32 then (rustTrim existing_id, none)
      else (hexEncode env.randomBytes, some (hexEncode env.randomBytes))
    | none => (hexEncode env.randomBytes, some (hexEncode env.randomBytes))
  else (hexEncode env.randomBytes, none)

/-- Environment of `get_device_id`: the outcome of `machine_uid::get()`
and the fallback environment. -/
structure DeviceEnv where
  machineId : Option String
  fb : FallbackEnv

/-- Rust `get_device_id()`: hex of the first 16 bytes of SHA-256 of the
machine id when available, otherwise the persisted-random fallback. -/
def get_device_id (sha : List Nat → List Nat) (env : DeviceEnv) : String :=
  match env.machineId with
  | some id => hexEncode ((sha (strBytes id)).take 16)
  | none => (get_or_create_fallback_device_id env.fb).1

/-- Environment of `load_credentials`: outcome of `get_credentials_path`
(`some e` is its already-formatted error), existence of the credentials
file, and the file read outcome (characters of the base64 text). -/
structure LoadEnv where
  pathErr : Option String
  fileExists : Bool
  readRes : Except String (List Char)

/-- Rust `load_credentials` (secure_storage.rs lines 197-238). -/
def load_credentials (aead : AeadCipher) (sha : List Nat → List Nat) (serde : SerdeJson)
    (denv : DeviceEnv) (env : LoadEnv) : Except String CredentialResponse :=
  let device_id := get_device_id sha denv
  let key := derive_key sha device_id
  match env.pathErr with
  | some e => Except.error e
  | none =>
    if ¬ env.fileExists then
      Except.ok { success := false, message := "未找到保存的凭据", steamid64 := none, securecode := none }
    else
      match env.readRes with
      | .error e => Except.error ("Failed to read credentials: " ++ e)
      | .ok encrypted =>
        match decrypt_data aead encrypted key with
        | .error e => Except.error e
        | .ok json =>
          match serde.fromJson json with
          | .error e => Except.error ("Failed to parse credentials: " ++ e)
          | .ok credentials =>
            if credentials.device_id ≠ device_id then
              Except.error "凭据与当前设备不匹配，可能已被复制。请重新登录。"
            else
              Except.ok { success := true, message := "凭据加载成功",
                          steamid64 := some credentials.steamid64,
                          securecode := some credentials.securecode }

/-- Environment of `save_credentials`: the nonce `OsRng` yields inside
`encrypt_data`, the clock reading, and the path/write outcomes. -/
structure SaveEnv where
  nonce : List Nat
  created_at : Nat
  pathErr : Option String
  writeErr : Option String

/-- Rust `save_credentials` (secure_storage.rs lines 154-193). -/
def save_credentials (aead : AeadCipher) (sha : List Nat → List Nat) (serde : SerdeJson)
    (denv : DeviceEnv) (env : SaveEnv) (steamid64 securecode : String) :
    Except String CredentialResponse :=
  let device_id := get_device_id sha denv
  let key := derive_key sha device_id
  let credentials : StoredCredentials :=
    { steamid64 := steamid64, securecode := securecode, device_id := device_id,
      created_at := env.created_at }
  match serde.toJson credentials with
  | .error e => Except.error ("Serialization failed: " ++ e)
  | .ok json =>
    match encrypt_data aead env.nonce json key with
    | .error e => Except.error e
    | .ok _encrypted =>
      match env.pathErr with
      | some e => Except.error e
      | none =>
        match env.writeErr with
        | some e => Except.error ("Failed to save credentials: " ++ e)
        | none =>
          Except.ok { success := true, message := "凭据已安全保存",
                      steamid64 := some steamid64, securecode := none }

/-! ## Concrete fixtures used by witnesses and counterexamples -/

/-- Toy AEAD cipher satisfying the round-trip property: append a 16-byte
tag of zeros on encryption, strip it on decryption. -/
def toyAead : AeadCipher :=
  { encrypt := fun _ d => some (d ++ List.replicate 16 0),
    decrypt := fun _ c => if 16 ≤ c.length then some (c.take (c.length - 16)) else none }

/-- Toy stand-in for SHA-256: a constant 32-byte digest. -/
def toySha : List Nat → List Nat := fun _ => List.replicate 32 0

/-- Toy serde: serialization to a one-byte document, deserialization to a
fixed record whose embedded device id is the 32-character string aaaa…a. -/
def toySerde : SerdeJson :=
  { toJson := fun _ => .ok [104],
    fromJson := fun _ =>
      .ok { steamid64 := "76561198000000001", securecode := "code",
            device_id := "aaaaaaaaaaaaaaaaaaaaaaaaaaaaaaaa", created_at := 0 } }

/-! ## Helper lemmas on lists -/

theorem getD_append_lt : ∀ (l1 l2 : List Nat) (k : Nat), k < l1.length →
    (l1 ++ l2).getD k 0 = l1.getD k 0
  | [], _, k, h => absurd h (by simp)
  | a :: t, l2, 0, _ => rfl
  | a :: t, l2, k + 1, h => getD_append_lt t l2 k (by simpa using h)

theorem getD_append_ge : ∀ (l1 l2 : List Nat) (k : Nat), l1.length ≤ k →
    (l1 ++ l2).getD k 0 = l2.getD (k - l1.length) 0
  | [], _, k, _ => by simp
  | a :: t, l2, 0, h => absurd h (by simp)
  | a :: t, l2, k + 1, h => by
    have := getD_append_ge t l2 k (by simpa using h)
    simpa [List.getD] using this

theorem getD_replicate_zero : ∀ (m k : Nat), (List.replicate m (0 : Nat)).getD k 0 = 0
  | 0, _ => rfl
  | m + 1, 0 => rfl
  | m + 1, k + 1 => getD_replicate_zero m k

theorem getD_take_lt : ∀ (l : List Nat) (n k : Nat), k < n → (l.take n).getD k 0 = l.getD k 0
  | [], _, _, _ => by simp
  | a :: t, n + 1, 0, _ => rfl
  | a :: t, n + 1, k + 1, h => getD_take_lt t n k (by omega)

theorem getD_mem : ∀ (l : List Nat) (k : Nat), k < l.length → l.getD k 0 ∈ l
  | [], k, h => absurd h (by simp)
  | a :: t, 0, _ => List.mem_cons_self a t
  | a :: t, k + 1, h => List.mem_cons_of_mem a (getD_mem t k (by simpa using h))

theorem take_of_len_le : ∀ (l : List Nat) (n : Nat), l.length ≤ n → l.take n = l
  | [], _, _ => by simp
  | a :: t, n + 1, h => by
    simpa using take_of_len_le t n (by simpa using h)
  | a :: t, 0, h => absurd h (by simp)

theorem take_len_append : ∀ (l1 l2 : List Nat), (l1 ++ l2).take l1.length = l1
  | [], _ => rfl
  | a :: t, l2 => by simpa using take_len_append t l2

theorem drop_len_append : ∀ (l1 l2 : List Nat), (l1 ++ l2).drop l1.length = l2
  | [], _ => rfl
  | a :: t, l2 => drop_len_append t l2

theorem drop_replicate_zero : ∀ (m k : Nat), (List.replicate m (0 : Nat)).drop k = List.replicate (m - k) 0
  | m, 0 => rfl
  | 0, k + 1 => by simp
  | m + 1, k + 1 => by simpa [Nat.succ_sub_succ] using drop_replicate_zero m k

/-! ## Characterization of the read_cstring scan -/

theorem cstrEnd_spec (data : List Nat) :
    ∀ (m s e : Nat), e - s = m → s ≤ e → e ≤ data.length →
    (∀ k, s ≤ k → k < e → data.getD k 0 ≠ 0) →
    (e = data.length ∨ data.getD e 0 = 0) →
    cstrEnd data s = e := by
  intro m
  induction m with
  | zero =>
    intro s e hm hse hel hnz hz
    have hse2 : s = e := by omega
    subst hse2
    unfold cstrEnd
    rcases hz with hz | hz
    · rw [dif_neg (by omega)]
    · by_cases hlt : s < data.length
      · rw [dif_pos hlt, if_neg (not_not_intro hz)]
      · rw [dif_neg hlt]
  | succ n ih =>
    intro s e hm hse hel hnz hz
    have hslt : s < e := by omega
    have hsdl : s < data.length := by omega
    have hnz0 : data.getD s 0 ≠ 0 := hnz s (le_refl s) hslt
    unfold cstrEnd
    rw [dif_pos hsdl, if_pos hnz0]
    exact ih (s + 1) e (by omega) (by omega) hel (fun k hk1 hk2 => hnz k (by omega) hk2) hz

theorem read_cstring_eq (data : List Nat) (s e : Nat) (hse : s ≤ e) (hel : e ≤ data.length)
    (hnz : ∀ k, s ≤ k → k < e → data.getD k 0 ≠ 0)
    (hz : e = data.length ∨ data.getD e 0 = 0) :
    read_cstring data s = some (utf8Lossy ((data.drop s).take (e - s)), e + 1) := by
  have hc := cstrEnd_spec data (e - s) s e rfl hse hel hnz hz
  unfold read_cstring
  rw [if_pos (by omega), hc]

/-! ## Base64 round-trip -/

theorem b64Char_spec : ∀ n, n < 64 → b64Val (b64Char n) = some n ∧ b64Char n ≠ Char.ofNat 61 := by
  decide

theorem b64Char_ne_pad (n : Nat) (h : n < 64) : (b64Char n == Char.ofNat 61) = false :=
  beq_eq_false_iff_ne.mpr ((b64Char_spec n h).2)

theorem base64_roundtrip : ∀ (bs : List Nat), (∀ b ∈ bs, b < 256) →
    base64Decode (base64Encode bs) = some bs
  | [], _ => rfl
  | [b0], h => by
    have h0 : b0 < 256 := h b0 (by simp)
    have t0 := (b64Char_spec (b0 / 4) (by omega)).1
    have t1 := (b64Char_spec (b0 % 4 * 16) (by omega)).1
    have e0 : b0 / 4 * 4 + b0 % 4 * 16 / 16 = b0 := by omega
    simp only [base64Encode, base64Decode, List.isEmpty, beq_self_eq_true, Bool.and_self,
      Bool.and_true, Bool.true_and, if_true, t0, t1]
    rw [if_pos (by omega : b0 % 4 * 16 % 16 = 0), e0]
  | [b0, b1], h => by
    have h0 : b0 < 256 := h b0 (by simp)
    have h1 : b1 < 256 := h b1 (by simp)
    have t0 := (b64Char_spec (b0 / 4) (by omega)).1
    have t1 := (b64Char_spec (b0 % 4 * 16 + b1 / 16) (by omega)).1
    have t2 := (b64Char_spec (b1 % 16 * 4) (by omega)).1
    have f2 := b64Char_ne_pad (b1 % 16 * 4) (by omega)
    have e0 : b0 / 4 * 4 + (b0 % 4 * 16 + b1 / 16) / 16 = b0 := by omega
    have e1 : (b0 % 4 * 16 + b1 / 16) % 16 * 16 + b1 % 16 * 4 / 4 = b1 := by omega
    simp only [base64Encode, base64Decode, List.isEmpty, beq_self_eq_true, Bool.and_self,
      Bool.and_true, Bool.true_and, Bool.and_false, Bool.false_and, f2, if_false,
      Bool.false_eq_true, if_true, t0, t1, t2]
    rw [if_pos (by omega : b1 % 16 * 4 % 4 = 0), e0, e1]
  | b0 :: b1 :: b2 :: rest, h => by
    have h0 : b0 < 256 := h b0 (by simp)
    have h1 : b1 < 256 := h b1 (by simp)
    have h2 : b2 < 256 := h b2 (by simp)
    have ih := base64_roundtrip rest (fun b hb => h b (by simp [hb]))
    have t0 := (b64Char_spec (b0 / 4) (by omega)).1
    have t1 := (b64Char_spec (b0 % 4 * 16 + b1 / 16) (by omega)).1
    have t2 := (b64Char_spec (b1 % 16 * 4 + b2 / 64) (by omega)).1
    have t3 := (b64Char_spec (b2 % 64) (by omega)).1
    have f2 := b64Char_ne_pad (b1 % 16 * 4 + b2 / 64) (by omega)
    have f3 := b64Char_ne_pad (b2 % 64) (by omega)
    have e0 : b0 / 4 * 4 + (b0 % 4 * 16 + b1 / 16) / 16 = b0 := by omega
    have e1 : (b0 % 4 * 16 + b1 / 16) % 16 * 16 + (b1 % 16 * 4 + b2 / 64) / 4 = b1 := by omega
    have e2 : (b1 % 16 * 4 + b2 / 64) % 4 * 64 + b2 % 64 = b2 := by omega
    simp only [base64Encode, base64Decode, f2, f3, Bool.and_false, Bool.false_and,
      Bool.and_self, Bool.false_eq_true, if_false, t0, t1, t2, t3, ih]
    rw [e0, e1, e2]

/-! ## Sanitizer and parse-shape lemmas -/

theorem ite_neg_eq_max (x : Int) : (if x < 0 then 0 else x) = max 0 x := by
  rcases lt_or_le x 0 with h | h
  · rw [if_pos h]
    exact (max_eq_left h.le).symm
  · rw [if_neg (not_lt.mpr h)]
    exact (max_eq_right h).symm

theorem sanitize_success (r : A2SQueryResult) : (sanitize_result r).success = r.success := by
  by_cases h : r.max_players > 67 <;> simp [sanitize_result, h]

theorem sanitize_error (r : A2SQueryResult) : (sanitize_result r).error = r.error := by
  by_cases h : r.max_players > 67 <;> simp [sanitize_result, h]

theorem sanitize_ip (r : A2SQueryResult) : (sanitize_result r).ip = r.ip := by
  by_cases h : r.max_players > 67 <;> simp [sanitize_result, h]

theorem sanitize_port (r : A2SQueryResult) : (sanitize_result r).port = r.port := by
  by_cases h : r.max_players > 67 <;> simp [sanitize_result, h]

theorem sanitize_real (r : A2SQueryResult) :
    (sanitize_result r).real_players = max 0 ((sanitize_result r).players - (sanitize_result r).bots) := by
  unfold sanitize_result
  by_cases h : r.max_players > 67
  · rw [if_pos h]
    dsimp only
    rw [ite_neg_eq_max]
  · rw [if_neg h]
    dsimp only
    rw [ite_neg_eq_max]

theorem parse_info_shape (buf : List Nat) (r0 r : A2SQueryResult)
    (h : parse_info buf r0 = some r) :
    r.success = true ∧ r.error = r0.error ∧ r.ip = r0.ip ∧ r.port = r0.port ∧
    r.real_players = max 0 (r.players - r.bots) := by
  unfold parse_info at h
  split at h
  · exact Option.noConfusion h
  · split at h
    · exact Option.noConfusion h
    · split at h
      · exact Option.noConfusion h
      · split at h
        · exact Option.noConfusion h
        · dsimp only at h
          have hr := Option.some.inj h
          subst hr
          refine ⟨rfl, ?_, ?_, ?_, ?_⟩
          · exact sanitize_error _
          · exact sanitize_ip _
          · exact sanitize_port _
          · exact sanitize_real _

/-! ## Claim C1: player-count sanitization -/

/-- Claim C1: on every parsed query response, if the parsed max_players
exceeds 67 then players, max_players and bots are zeroed (and
real_players is 0); in every case real_players equals max(0, players -
bots) of the possibly zeroed counts, hence is never negative; and when
players ≥ bots ≥ 0 and max_players ≤ 67 it equals players - bots. -/
theorem claim_C1 :
    (∀ r : A2SQueryResult,
      (r.max_players > 67 →
        (sanitize_result r).players = 0 ∧ (sanitize_result r).max_players = 0 ∧
        (sanitize_result r).bots = 0 ∧ (sanitize_result r).real_players = 0) ∧
      (sanitize_result r).real_players =
        max 0 ((sanitize_result r).players - (sanitize_result r).bots) ∧
      0 ≤ (sanitize_result r).real_players ∧
      (0 ≤ r.bots → r.bots ≤ r.players → r.max_players ≤ 67 →
        (sanitize_result r).real_players = r.players - r.bots)) ∧
    (∀ (buf : List Nat) (r0 r : A2SQueryResult), parse_info buf r0 = some r →
      r.real_players = max 0 (r.players - r.bots) ∧ 0 ≤ r.real_players) := by
  constructor
  · intro r
    refine ⟨?_, sanitize_real r, ?_, ?_⟩
    · intro h
      unfold sanitize_result
      rw [if_pos h]
      dsimp only
      refine ⟨rfl, rfl, rfl, ?_⟩
      norm_num
    · rw [sanitize_real r]
      exact le_max_left _ _
    · intro hb0 hbp hm
      unfold sanitize_result
      rw [if_neg (by omega)]
      dsimp only
      rw [if_neg (by omega)]
  · intro buf r0 r h
    obtain ⟨_, _, _, _, hreal⟩ := parse_info_shape buf r0 r h
    refine ⟨hreal, ?_⟩
    rw [hreal]
    exact le_max_left _ _

/-- Witness for C1 at concrete inputs: max_players 100 forces
real_players to 0; max_players 64 with players 10, bots 3 yields 7. -/
theorem claim_C1_w :
    (sanitize_result
      { A2SQueryResult.default with players := 10, max_players := 100, bots := 3 }).real_players = 0 ∧
    (sanitize_result
      { A2SQueryResult.default with players := 10, max_players := 64, bots := 3 }).real_players = 7 := by
  constructor
  · exact ((claim_C1.1 _).1 (by decide)).2.2.2
  · have h := (claim_C1.1
      { A2SQueryResult.default with players := 10, max_players := 64, bots := 3 }).2.2.2
      (by decide) (by decide) (by decide)
    rw [h]
    decide

/-! ## Claim C9: the A2S_INFO request constant -/

/-- Claim C9 counterexample: the request buffer is NOT the 0xFFFFFFFF
marker followed directly by the ASCII bytes of the string Source Engine
Query and a zero byte — that accounts for only 24 of the 25 bytes, as it
omits the 0x54 type byte. -/
theorem claim_C9_cex :
    A2S_INFO ≠
      [0xFF, 0xFF, 0xFF, 0xFF] ++ (String.toList "Source Engine Query").map Char.toNat ++ [0x00] := by
  decide

/-- Claim C9 (amended): the request buffer equals exactly the 25 bytes FF
FF FF FF 54 53 6F 75 72 63 65 20 45 6E 67 69 6E 65 20 51 75 65 72 79 00,
that is, the 0xFFFFFFFF marker followed by the 0x54 type byte, the ASCII
string Source Engine Query and a terminating zero byte. -/
theorem claim_C9 :
    A2S_INFO = [0xFF, 0xFF, 0xFF, 0xFF, 0x54, 0x53, 0x6F, 0x75, 0x72, 0x63, 0x65, 0x20,
                0x45, 0x6E, 0x67, 0x69, 0x6E, 0x65, 0x20, 0x51, 0x75, 0x65, 0x72, 0x79, 0x00] ∧
    A2S_INFO =
      [0xFF, 0xFF, 0xFF, 0xFF] ++ [0x54] ++
        (String.toList "Source Engine Query").map Char.toNat ++ [0x00] ∧
    A2S_INFO.length = 25 := by
  refine ⟨rfl, ?_, rfl⟩
  decide

/-! ## Claim C10: result invariants of a2s_query -/

/-- Claim C10: every result returned by the query function carries the
caller-supplied ip and port, and its success flag is true exactly when
the error field is empty. -/
theorem claim_C10 (ip port : String) (w : NetWorld) (r : A2SQueryResult)
    (h : (a2s_query ip port w).2 = some r) :
    r.ip = ip ∧ r.port = port ∧ (r.success = true ↔ r.error = none) := by
  unfold a2s_query finishParse at h
  repeat'
    first
      | split at h
      | dsimp only at h
  all_goals
    first
      | (have hr := Option.some.inj h
         subst hr
         exact ⟨rfl, rfl, ⟨(fun hs => Bool.noConfusion hs), (fun he2 => Option.noConfusion he2)⟩⟩)
      | (obtain ⟨hs, he, hip, hport, _⟩ := parse_info_shape _ _ _ h
         refine ⟨hip, hport, ?_⟩
         rw [hs, he]
         simp [A2SQueryResult.default])

/-- Witness for C10 on a concrete failing world (socket bind fails). -/
theorem claim_C10_w :
    (A2SQueryResult.mk false (some ("Failed to create socket: " ++ "io")) "1.2.3.4" "27015"
      "" "" "" 0 0 0 0 "" "" false false "").ip = "1.2.3.4" ∧
    (A2SQueryResult.mk false (some ("Failed to create socket: " ++ "io")) "1.2.3.4" "27015"
      "" "" "" 0 0 0 0 "" "" false false "").port = "27015" ∧
    ((A2SQueryResult.mk false (some ("Failed to create socket: " ++ "io")) "1.2.3.4" "27015"
      "" "" "" 0 0 0 0 "" "" false false "").success = true ↔
     (A2SQueryResult.mk false (some ("Failed to create socket: " ++ "io")) "1.2.3.4" "27015"
      "" "" "" 0 0 0 0 "" "" false false "").error = none) :=
  claim_C10 "1.2.3.4" "27015"
    { bindErr := some "io", timeoutErr := none, connectErr := none, send1Err := none,
      recv1 := Except.error "x", send2Err := none, recv2 := Except.error "x" } _ rfl

/-! ## Claim C3: the challenge handshake -/

theorem toLe_fromLe (a b c d : Nat) (ha : a < 256) (hb : b < 256) (hc : c < 256) (hd : d < 256) :
    toLeBytes (fromLeBytes a b c d) = [a, b, c, d] := by
  unfold toLeBytes fromLeBytes
  have e1 : (a + 256 * b + 65536 * c + 16777216 * d) % 256 = a := by omega
  have e2 : (a + 256 * b + 65536 * c + 16777216 * d) / 256 % 256 = b := by omega
  have e3 : (a + 256 * b + 65536 * c + 16777216 * d) / 65536 % 256 = c := by omega
  have e4 : (a + 256 * b + 65536 * c + 16777216 * d) / 16777216 % 256 = d := by omega
  rw [e1, e2, e3, e4]

theorem recvInto_getD (buf d : List Nat) (k : Nat) (hk : k < d.length) (hk2 : k < 1400) :
    ((recvInto buf d).1).getD k 0 = d.getD k 0 := by
  unfold recvInto
  dsimp only
  rw [getD_append_lt]
  · exact getD_take_lt d 1400 k hk2
  · rw [List.length_take]
    omega

theorem recvInto_len (buf d : List Nat) : (recvInto buf d).2 = min d.length 1400 := rfl

/-- Claim C3: when the first response has a valid header, type byte 0x41
and received length at least 9, the transport sends exactly two datagrams:
the base request and the base request with the 4-byte little-endian
challenge from offset 5 appended — never a third; and when the second
response is again a challenge-type response, the query ends in a final
failed parse (success false, invalid-response-type error) rather than
another retry. -/
theorem claim_C3 (ip port : String) (w : NetWorld) (d1 : List Nat)
    (hb : w.bindErr = none) (ht : w.timeoutErr = none) (hc : w.connectErr = none)
    (hs1 : w.send1Err = none) (hr1 : w.recv1 = Except.ok d1)
    (hlen : 9 ≤ d1.length) (hbytes : ∀ x ∈ d1, x < 256)
    (hh0 : d1.getD 0 0 = 0xFF) (hh1 : d1.getD 1 0 = 0xFF)
    (hh2 : d1.getD 2 0 = 0xFF) (hh3 : d1.getD 3 0 = 0xFF)
    (hty : d1.getD 4 0 = 0x41) :
    (a2s_query ip port w).1 =
      [A2S_INFO, A2S_INFO ++ [d1.getD 5 0, d1.getD 6 0, d1.getD 7 0, d1.getD 8 0]] ∧
    (∀ (d2 : List Nat), w.send2Err = none → w.recv2 = Except.ok d2 →
      6 ≤ d2.length → d2.length ≤ 1400 →
      d2.getD 0 0 = 0xFF → d2.getD 1 0 = 0xFF → d2.getD 2 0 = 0xFF → d2.getD 3 0 = 0xFF →
      d2.getD 4 0 = 0x41 →
      (a2s_query ip port w).2 =
        some { A2SQueryResult.default with
                ip := ip, port := port, error := some "Invalid response type: 0x41" }) := by
  have hbuf : ∀ k, k ≤ 8 → ((recvInto (List.replicate 1400 0) d1).1).getD k 0 = d1.getD k 0 :=
    fun k hk => recvInto_getD _ _ _ (by omega) (by omega)
  have hn1 : (recvInto (List.replicate 1400 0) d1).2 = min d1.length 1400 := rfl
  have hhead : headerOk (recvInto (List.replicate 1400 0) d1).1 = true := by
    unfold headerOk
    rw [hbuf 0 (by omega), hbuf 1 (by omega), hbuf 2 (by omega), hbuf 3 (by omega),
      hh0, hh1, hh2, hh3]
    rfl
  have hch : (recvInto (List.replicate 1400 0) d1).1.getD 4 0 = 0x41 ∧
      (recvInto (List.replicate 1400 0) d1).2 ≥ 9 := by
    constructor
    · rw [hbuf 4 (by omega), hty]
    · rw [hn1]
      omega
  have hreq : A2S_INFO ++ toLeBytes (fromLeBytes
        ((recvInto (List.replicate 1400 0) d1).1.getD 5 0)
        ((recvInto (List.replicate 1400 0) d1).1.getD 6 0)
        ((recvInto (List.replicate 1400 0) d1).1.getD 7 0)
        ((recvInto (List.replicate 1400 0) d1).1.getD 8 0)) =
      A2S_INFO ++ [d1.getD 5 0, d1.getD 6 0, d1.getD 7 0, d1.getD 8 0] := by
    rw [hbuf 5 (by omega), hbuf 6 (by omega), hbuf 7 (by omega), hbuf 8 (by omega)]
    rw [toLe_fromLe _ _ _ _
      (hbytes _ (getD_mem d1 5 (by omega))) (hbytes _ (getD_mem d1 6 (by omega)))
      (hbytes _ (getD_mem d1 7 (by omega))) (hbytes _ (getD_mem d1 8 (by omega)))]
  constructor
  · unfold a2s_query
    rw [hb, ht, hc, hs1, hr1]
    dsimp only
    rw [if_neg (by rw [hn1]; omega), if_neg (by rw [hhead]; simp), if_pos hch]
    rcases hse : w.send2Err with _ | e
    · rcases hre : w.recv2 with e2 | d2
      · dsimp only
        rw [hreq]
      · dsimp only
        by_cases h6 : (recvInto (recvInto (List.replicate 1400 0) d1).1 d2).2 < 6
        · rw [if_pos h6]
          rw [hreq]
        · rw [if_neg h6]
          by_cases hhd : headerOk (recvInto (recvInto (List.replicate 1400 0) d1).1 d2).1 = true
          · rw [if_neg (not_not_intro hhd)]
            rw [hreq]
          · rw [if_pos hhd]
            rw [hreq]
    · dsimp only
      rw [hreq]
  · intro d2 hse hre hl2 hu2 g0 g1 g2 g3 g4
    have hbuf2 : ∀ k, k ≤ 5 →
        ((recvInto (recvInto (List.replicate 1400 0) d1).1 d2).1).getD k 0 = d2.getD k 0 :=
      fun k hk => recvInto_getD _ _ _ (by omega) (by omega)
    have hn2 : (recvInto (recvInto (List.replicate 1400 0) d1).1 d2).2 = min d2.length 1400 := rfl
    unfold a2s_query
    rw [hb, ht, hc, hs1, hr1]
    dsimp only
    rw [if_neg (by rw [hn1]; omega), if_neg (by rw [hhead]; simp), if_pos hch]
    rw [hse, hre]
    dsimp only
    rw [if_neg (by rw [hn2]; omega)]
    have hhead2 : headerOk (recvInto (recvInto (List.replicate 1400 0) d1).1 d2).1 = true := by
      unfold headerOk
      rw [hbuf2 0 (by omega), hbuf2 1 (by omega), hbuf2 2 (by omega), hbuf2 3 (by omega),
        g0, g1, g2, g3]
      rfl
    rw [if_neg (not_not_intro hhead2)]
    unfold finishParse
    rw [hbuf2 4 (by omega), g4]
    rw [if_pos (by omega)]
    have hmsg : ("Invalid response type: 0x" ++ hexByteUpper 0x41) = "Invalid response type: 0x41" := by
      decide
    rw [hmsg]

/-- Witness for C3: a concrete challenge handshake in which the server
re-challenges; exactly two requests are sent and the result is the final
invalid-response-type failure. -/
theorem claim_C3_w :
    (a2s_query "1.2.3.4" "27015"
      { bindErr := none, timeoutErr := none, connectErr := none, send1Err := none,
        recv1 := Except.ok [255, 255, 255, 255, 0x41, 1, 2, 3, 4], send2Err := none,
        recv2 := Except.ok [255, 255, 255, 255, 0x41, 9] }).1 =
      [A2S_INFO, A2S_INFO ++ [1, 2, 3, 4]] ∧
    (a2s_query "1.2.3.4" "27015"
      { bindErr := none, timeoutErr := none, connectErr := none, send1Err := none,
        recv1 := Except.ok [255, 255, 255, 255, 0x41, 1, 2, 3, 4], send2Err := none,
        recv2 := Except.ok [255, 255, 255, 255, 0x41, 9] }).2 =
      some { A2SQueryResult.default with
              ip := "1.2.3.4", port := "27015", error := some "Invalid response type: 0x41" } := by
  have h := claim_C3 "1.2.3.4" "27015"
    { bindErr := none, timeoutErr := none, connectErr := none, send1Err := none,
      recv1 := Except.ok [255, 255, 255, 255, 0x41, 1, 2, 3, 4], send2Err := none,
      recv2 := Except.ok [255, 255, 255, 255, 0x41, 9] }
    [255, 255, 255, 255, 0x41, 1, 2, 3, 4]
    rfl rfl rfl rfl rfl (by decide) (by decide) (by decide) (by decide) (by decide) (by decide)
    (by decide)
  refine ⟨h.1.trans (by decide), ?_⟩
  exact h.2 [255, 255, 255, 255, 0x41, 9] rfl rfl (by decide) (by decide) (by decide) (by decide)
    (by decide) (by decide) (by decide)

/-! ## Claim C2: truncation behaviour of the parser -/

theorem getD_len_append : ∀ (l1 l2 : List Nat), (l1 ++ l2).getD l1.length 0 = l2.getD 0 0
  | [], _ => rfl
  | _ :: t, l2 => getD_len_append t l2

theorem getD_append_add : ∀ (l1 l2 : List Nat) (k : Nat), (l1 ++ l2).getD (l1.length + k) 0 = l2.getD k 0
  | [], l2, k => by simp [List.getD]
  | _ :: t, l2, k => by
    have := getD_append_add t l2 k
    simpa [Nat.succ_add] using this

set_option maxHeartbeats 2000000 in
theorem parse_trunc (proto : Nat) (nb mb : List Nat) (r0 : A2SQueryResult)
    (hnb : ∀ x ∈ nb, x ≠ 0) (hmb : ∀ x ∈ mb, x ≠ 0)
    (hlen : 8 + nb.length + mb.length ≤ 1388) :
    parse_info
      ([0xFF, 0xFF, 0xFF, 0xFF, 0x49, proto] ++ nb ++ [0] ++ mb ++ [0] ++
        List.replicate (1392 - (nb.length + mb.length)) 0) r0 =
      some { r0 with
        name := utf8Lossy nb, map_name := utf8Lossy mb, game := utf8Lossy [],
        players := 0, max_players := 0, bots := 0, real_players := 0,
        server_type := String.mk [Char.ofNat 0], environment := String.mk [Char.ofNat 0],
        password := false, vac := false, version := utf8Lossy [], success := true } := by
  have hG1 : ([0xFF, 0xFF, 0xFF, 0xFF, 0x49, proto] ++ nb ++ [0] ++ mb ++ [0] ++
        List.replicate (1392 - (nb.length + mb.length)) 0) =
      [0xFF, 0xFF, 0xFF, 0xFF, 0x49, proto] ++
        (nb ++ ([0] ++ (mb ++ ([0] ++ List.replicate (1392 - (nb.length + mb.length)) 0)))) := by
    simp [List.append_assoc]
  have hG2 : ([0xFF, 0xFF, 0xFF, 0xFF, 0x49, proto] ++ nb ++ [0] ++ mb ++ [0] ++
        List.replicate (1392 - (nb.length + mb.length)) 0) =
      ([0xFF, 0xFF, 0xFF, 0xFF, 0x49, proto] ++ nb) ++
        ([0] ++ (mb ++ ([0] ++ List.replicate (1392 - (nb.length + mb.length)) 0))) := by
    simp [List.append_assoc]
  have hG3 : ([0xFF, 0xFF, 0xFF, 0xFF, 0x49, proto] ++ nb ++ [0] ++ mb ++ [0] ++
        List.replicate (1392 - (nb.length + mb.length)) 0) =
      ([0xFF, 0xFF, 0xFF, 0xFF, 0x49, proto] ++ nb ++ [0]) ++
        (mb ++ ([0] ++ List.replicate (1392 - (nb.length + mb.length)) 0)) := by
    simp [List.append_assoc]
  have hG4 : ([0xFF, 0xFF, 0xFF, 0xFF, 0x49, proto] ++ nb ++ [0] ++ mb ++ [0] ++
        List.replicate (1392 - (nb.length + mb.length)) 0) =
      ([0xFF, 0xFF, 0xFF, 0xFF, 0x49, proto] ++ nb ++ [0] ++ mb) ++
        ([0] ++ List.replicate (1392 - (nb.length + mb.length)) 0) := by
    simp [List.append_assoc]
  have hG5 : ([0xFF, 0xFF, 0xFF, 0xFF, 0x49, proto] ++ nb ++ [0] ++ mb ++ [0] ++
        List.replicate (1392 - (nb.length + mb.length)) 0) =
      ([0xFF, 0xFF, 0xFF, 0xFF, 0x49, proto] ++ nb ++ [0] ++ mb ++ [0]) ++
        List.replicate (1392 - (nb.length + mb.length)) 0 := rfl
  have hlen2 : ([0xFF, 0xFF, 0xFF, 0xFF, 0x49, proto] ++ nb ++ [0] ++ mb ++ [0] ++
        List.replicate (1392 - (nb.length + mb.length)) 0).length = 1400 := by
    simp only [List.length_append, List.length_cons, List.length_nil, List.length_replicate]
    omega
  have hvalname : ∀ k, k < nb.length →
      ([0xFF, 0xFF, 0xFF, 0xFF, 0x49, proto] ++ nb ++ [0] ++ mb ++ [0] ++
        List.replicate (1392 - (nb.length + mb.length)) 0).getD (6 + k) 0 = nb.getD k 0 := by
    intro k hk
    rw [hG1, show 6 + k = ([0xFF, 0xFF, 0xFF, 0xFF, 0x49, proto] : List Nat).length + k from by
        first
          | omega
          | (simp only [List.length_append, List.length_cons, List.length_nil] <;> omega)]
    rw [getD_append_add]
    exact getD_append_lt nb _ k hk
  have hz0 : ([0xFF, 0xFF, 0xFF, 0xFF, 0x49, proto] ++ nb ++ [0] ++ mb ++ [0] ++
      List.replicate (1392 - (nb.length + mb.length)) 0).getD (6 + nb.length) 0 = 0 := by
    rw [hG2, show 6 + nb.length =
      ([0xFF, 0xFF, 0xFF, 0xFF, 0x49, proto] ++ nb : List Nat).length from by
        first
          | omega
          | (simp only [List.length_append, List.length_cons, List.length_nil] <;> omega)]
    exact (getD_len_append _ _).trans rfl
  have hvalmap : ∀ k, k < mb.length →
      ([0xFF, 0xFF, 0xFF, 0xFF, 0x49, proto] ++ nb ++ [0] ++ mb ++ [0] ++
        List.replicate (1392 - (nb.length + mb.length)) 0).getD (6 + nb.length + 1 + k) 0 =
      mb.getD k 0 := by
    intro k hk
    rw [hG3, show 6 + nb.length + 1 + k =
      ([0xFF, 0xFF, 0xFF, 0xFF, 0x49, proto] ++ nb ++ [0] : List Nat).length + k from by
        first
          | omega
          | (simp only [List.length_append, List.length_cons, List.length_nil] <;> omega)]
    rw [getD_append_add]
    exact getD_append_lt mb _ k hk
  have hz1 : ([0xFF, 0xFF, 0xFF, 0xFF, 0x49, proto] ++ nb ++ [0] ++ mb ++ [0] ++
      List.replicate (1392 - (nb.length + mb.length)) 0).getD (6 + nb.length + 1 + mb.length) 0 = 0 := by
    rw [hG4, show 6 + nb.length + 1 + mb.length =
      ([0xFF, 0xFF, 0xFF, 0xFF, 0x49, proto] ++ nb ++ [0] ++ mb : List Nat).length from by
        first
          | omega
          | (simp only [List.length_append, List.length_cons, List.length_nil] <;> omega)]
    exact (getD_len_append _ _).trans rfl
  have hget : ∀ k, 6 + nb.length + 1 + mb.length + 1 ≤ k →
      ([0xFF, 0xFF, 0xFF, 0xFF, 0x49, proto] ++ nb ++ [0] ++ mb ++ [0] ++
        List.replicate (1392 - (nb.length + mb.length)) 0).getD k 0 = 0 := by
    intro k hk
    rw [hG5, getD_append_ge _ _ _ (by
      first
        | omega
        | (simp only [List.length_append, List.length_cons, List.length_nil] <;> omega))]
    exact getD_replicate_zero _ _
  have hdrop6 : ([0xFF, 0xFF, 0xFF, 0xFF, 0x49, proto] ++ nb ++ [0] ++ mb ++ [0] ++
        List.replicate (1392 - (nb.length + mb.length)) 0).drop 6 =
      nb ++ ([0] ++ (mb ++ ([0] ++ List.replicate (1392 - (nb.length + mb.length)) 0))) := by
    rw [hG1]
    rfl
  have hdropMap : ([0xFF, 0xFF, 0xFF, 0xFF, 0x49, proto] ++ nb ++ [0] ++ mb ++ [0] ++
        List.replicate (1392 - (nb.length + mb.length)) 0).drop (6 + nb.length + 1) =
      mb ++ ([0] ++ List.replicate (1392 - (nb.length + mb.length)) 0) := by
    rw [hG3, show 6 + nb.length + 1 =
      ([0xFF, 0xFF, 0xFF, 0xFF, 0x49, proto] ++ nb ++ [0] : List Nat).length from by
        first
          | omega
          | (simp only [List.length_append, List.length_cons, List.length_nil] <;> omega)]
    exact drop_len_append _ _
  have hname := read_cstring_eq
    ([0xFF, 0xFF, 0xFF, 0xFF, 0x49, proto] ++ nb ++ [0] ++ mb ++ [0] ++
      List.replicate (1392 - (nb.length + mb.length)) 0) 6 (6 + nb.length)
    (by omega) (by rw [hlen2]; omega)
    (by
      intro k h1 h2
      have h3 := hvalname (k - 6) (by omega)
      rw [show 6 + (k - 6) = k from by omega] at h3
      rw [h3]
      exact fun hzz => hnb _ (hzz ▸ getD_mem nb (k - 6) (by omega)) rfl)
    (Or.inr hz0)
  rw [show 6 + nb.length - 6 = nb.length from by omega, hdrop6, take_len_append] at hname
  have hmap := read_cstring_eq
    ([0xFF, 0xFF, 0xFF, 0xFF, 0x49, proto] ++ nb ++ [0] ++ mb ++ [0] ++
      List.replicate (1392 - (nb.length + mb.length)) 0)
    (6 + nb.length + 1) (6 + nb.length + 1 + mb.length)
    (by omega) (by rw [hlen2]; omega)
    (by
      intro k h1 h2
      have h3 := hvalmap (k - (6 + nb.length + 1)) (by omega)
      rw [show 6 + nb.length + 1 + (k - (6 + nb.length + 1)) = k from by omega] at h3
      rw [h3]
      exact fun hzz => hmb _ (hzz ▸ getD_mem mb (k - (6 + nb.length + 1)) (by omega)) rfl)
    (Or.inr hz1)
  rw [show 6 + nb.length + 1 + mb.length - (6 + nb.length + 1) = mb.length from by omega,
    hdropMap, take_len_append] at hmap
  have hfold := read_cstring_eq
    ([0xFF, 0xFF, 0xFF, 0xFF, 0x49, proto] ++ nb ++ [0] ++ mb ++ [0] ++
      List.replicate (1392 - (nb.length + mb.length)) 0)
    (6 + nb.length + 1 + mb.length + 1) (6 + nb.length + 1 + mb.length + 1)
    (le_refl _) (by rw [hlen2]; omega)
    (fun k h1 h2 => absurd (lt_of_le_of_lt h1 h2) (lt_irrefl _))
    (Or.inr (hget _ (by omega)))
  rw [show 6 + nb.length + 1 + mb.length + 1 - (6 + nb.length + 1 + mb.length + 1) = 0
    from by omega, List.take_zero] at hfold
  have hgame := read_cstring_eq
    ([0xFF, 0xFF, 0xFF, 0xFF, 0x49, proto] ++ nb ++ [0] ++ mb ++ [0] ++
      List.replicate (1392 - (nb.length + mb.length)) 0)
    (6 + nb.length + 1 + mb.length + 1 + 1) (6 + nb.length + 1 + mb.length + 1 + 1)
    (le_refl _) (by rw [hlen2]; omega)
    (fun k h1 h2 => absurd (lt_of_le_of_lt h1 h2) (lt_irrefl _))
    (Or.inr (hget _ (by omega)))
  rw [show 6 + nb.length + 1 + mb.length + 1 + 1 - (6 + nb.length + 1 + mb.length + 1 + 1) = 0
    from by omega, List.take_zero] at hgame
  have hver := read_cstring_eq
    ([0xFF, 0xFF, 0xFF, 0xFF, 0x49, proto] ++ nb ++ [0] ++ mb ++ [0] ++
      List.replicate (1392 - (nb.length + mb.length)) 0)
    (6 + nb.length + 1 + mb.length + 1 + 1 + 1 + 2 + 3 + 1 + 1 + 1 + 1)
    (6 + nb.length + 1 + mb.length + 1 + 1 + 1 + 2 + 3 + 1 + 1 + 1 + 1)
    (le_refl _) (by rw [hlen2]; omega)
    (fun k h1 h2 => absurd (lt_of_le_of_lt h1 h2) (lt_irrefl _))
    (Or.inr (hget _ (by omega)))
  rw [show 6 + nb.length + 1 + mb.length + 1 + 1 + 1 + 2 + 3 + 1 + 1 + 1 + 1 -
      (6 + nb.length + 1 + mb.length + 1 + 1 + 1 + 2 + 3 + 1 + 1 + 1 + 1) = 0
    from by omega, List.take_zero] at hver
  have hzA := hget (6 + nb.length + 1 + mb.length + 1 + 1 + 1 + 2) (by omega)
  have hzB := hget (6 + nb.length + 1 + mb.length + 1 + 1 + 1 + 2 + 1) (by omega)
  have hzC := hget (6 + nb.length + 1 + mb.length + 1 + 1 + 1 + 2 + 2) (by omega)
  have hzD := hget (6 + nb.length + 1 + mb.length + 1 + 1 + 1 + 2 + 3) (by omega)
  have hzE := hget (6 + nb.length + 1 + mb.length + 1 + 1 + 1 + 2 + 3 + 1) (by omega)
  have hzF := hget (6 + nb.length + 1 + mb.length + 1 + 1 + 1 + 2 + 3 + 1 + 1) (by omega)
  have hzG := hget (6 + nb.length + 1 + mb.length + 1 + 1 + 1 + 2 + 3 + 1 + 1 + 1) (by omega)
  have c1 : 6 + nb.length + 1 + mb.length + 1 + 1 + 1 + 2 ≤ 1400 := by omega
  have c2 : 6 + nb.length + 1 + mb.length + 1 + 1 + 1 + 2 + 3 ≤ 1400 := by omega
  have c3 : 6 + nb.length + 1 + mb.length + 1 + 1 + 1 + 2 + 3 < 1400 := by omega
  have c4 : 6 + nb.length + 1 + mb.length + 1 + 1 + 1 + 2 + 3 + 1 < 1400 := by omega
  have c5 : 6 + nb.length + 1 + mb.length + 1 + 1 + 1 + 2 + 3 + 1 + 1 < 1400 := by omega
  have c6 : 6 + nb.length + 1 + mb.length + 1 + 1 + 1 + 2 + 3 + 1 + 1 + 1 < 1400 := by omega
  have c7 : 6 + nb.length + 1 + mb.length + 1 + 1 + 1 + 2 + 3 + 1 + 1 + 1 + 1 < 1400 := by omega
  unfold parse_info
  simp only [hname, hmap, hfold, hgame, hlen2, if_pos c1, if_pos c2, if_pos c3, if_pos c4,
    if_pos c5, if_pos c6, if_pos c7, hzA, hzB, hzC, hzD, hzE, hzF, hzG, hver]
  rfl

theorem a2s_trunc (ip port : String) (w : NetWorld) (proto : Nat) (nb mb : List Nat)
    (hb : w.bindErr = none) (ht : w.timeoutErr = none) (hc : w.connectErr = none)
    (hs1 : w.send1Err = none)
    (hr1 : w.recv1 =
      Except.ok ([0xFF, 0xFF, 0xFF, 0xFF, 0x49, proto] ++ nb ++ [0] ++ mb ++ [0]))
    (hnb : ∀ x ∈ nb, x ≠ 0) (hmb : ∀ x ∈ mb, x ≠ 0)
    (hlen : 8 + nb.length + mb.length ≤ 1388) :
    a2s_query ip port w =
      ([A2S_INFO], some { A2SQueryResult.default with
        ip := ip, port := port, success := true,
        name := utf8Lossy nb, map_name := utf8Lossy mb, game := utf8Lossy [],
        server_type := String.mk [Char.ofNat 0], environment := String.mk [Char.ofNat 0],
        version := utf8Lossy [] }) := by
  have hdlen : ([0xFF, 0xFF, 0xFF, 0xFF, 0x49, proto] ++ nb ++ [0] ++ mb ++ [0]).length =
      8 + nb.length + mb.length := by
    first
      | omega
      | (simp only [List.length_append, List.length_cons, List.length_nil] <;> omega)
  have hbufeq : (recvInto (List.replicate 1400 0)
        ([0xFF, 0xFF, 0xFF, 0xFF, 0x49, proto] ++ nb ++ [0] ++ mb ++ [0])).1 =
      [0xFF, 0xFF, 0xFF, 0xFF, 0x49, proto] ++ nb ++ [0] ++ mb ++ [0] ++
        List.replicate (1392 - (nb.length + mb.length)) 0 := by
    unfold recvInto
    dsimp only
    rw [take_of_len_le ([0xFF, 0xFF, 0xFF, 0xFF, 0x49, proto] ++ nb ++ [0] ++ mb ++ [0]) 1400
        (by omega),
      drop_replicate_zero]
    congr 2
    all_goals first
      | rfl
      | omega
  have hgd4 : ((recvInto (List.replicate 1400 0)
        ([0xFF, 0xFF, 0xFF, 0xFF, 0x49, proto] ++ nb ++ [0] ++ mb ++ [0])).1).getD 4 0 = 0x49 := by
    rw [hbufeq]
    rfl
  have hhead : headerOk (recvInto (List.replicate 1400 0)
        ([0xFF, 0xFF, 0xFF, 0xFF, 0x49, proto] ++ nb ++ [0] ++ mb ++ [0])).1 = true := by
    rw [hbufeq]
    rfl
  unfold a2s_query
  rw [hb, ht, hc, hs1, hr1]
  dsimp only
  rw [if_neg (by rw [recvInto_len]; omega)]
  rw [if_neg (not_not_intro hhead)]
  rw [if_neg (fun hcon => by
    rw [hgd4] at hcon
    exact absurd hcon.1 (by decide))]
  unfold finishParse
  rw [hgd4, if_neg (by decide), hbufeq, parse_trunc proto nb mb _ hnb hmb hlen]
  rfl

/-- Claim C2 (amended): field reads beyond the fixed 6-byte header are
bounds-checked against the full zero-initialized 1400-byte receive buffer
(not the received length n); a first response cut off immediately after
the map-name field still parses without failure: name and map_name are
populated, the numeric fields are zero, the flags false and the version
empty, but server_type and environment are parsed out of the zero fill
and become the one-character string U+0000 rather than keeping their
empty-string defaults. -/
theorem claim_C2 (ip port : String) (w : NetWorld) (proto : Nat) (nb mb : List Nat)
    (hb : w.bindErr = none) (ht : w.timeoutErr = none) (hc : w.connectErr = none)
    (hs1 : w.send1Err = none)
    (hr1 : w.recv1 =
      Except.ok ([0xFF, 0xFF, 0xFF, 0xFF, 0x49, proto] ++ nb ++ [0] ++ mb ++ [0]))
    (hnb : ∀ x ∈ nb, x ≠ 0) (hmb : ∀ x ∈ mb, x ≠ 0)
    (hlen : 8 + nb.length + mb.length ≤ 1388) :
    a2s_query ip port w =
      ([A2S_INFO], some { A2SQueryResult.default with
        ip := ip, port := port, success := true,
        name := utf8Lossy nb, map_name := utf8Lossy mb, game := utf8Lossy [],
        server_type := String.mk [Char.ofNat 0], environment := String.mk [Char.ofNat 0],
        version := utf8Lossy [] }) :=
  a2s_trunc ip port w proto nb mb hb ht hc hs1 hr1 hnb hmb hlen

/-- Claim C2 counterexample (to the claim as stated): a response cut off
right after the map-name field parses successfully, but the later field
server_type does NOT keep its default empty string — it becomes the
one-character NUL string read from the zero fill. -/
theorem claim_C2_cex :
    (a2s_query "1.2.3.4" "27015"
      { bindErr := none, timeoutErr := none, connectErr := none, send1Err := none,
        recv1 := Except.ok
          ([0xFF, 0xFF, 0xFF, 0xFF, 0x49, 0x11] ++ [97, 98, 99] ++ [0] ++ [100, 101] ++ [0]),
        send2Err := none, recv2 := Except.error "unused" }).2 =
      some { A2SQueryResult.default with
        ip := "1.2.3.4", port := "27015", success := true, name := "abc", map_name := "de",
        server_type := String.mk [Char.ofNat 0], environment := String.mk [Char.ofNat 0] } ∧
    String.mk [Char.ofNat 0] ≠ "" := by
  constructor
  · have h := a2s_trunc "1.2.3.4" "27015"
      { bindErr := none, timeoutErr := none, connectErr := none, send1Err := none,
        recv1 := Except.ok
          ([0xFF, 0xFF, 0xFF, 0xFF, 0x49, 0x11] ++ [97, 98, 99] ++ [0] ++ [100, 101] ++ [0]),
        send2Err := none, recv2 := Except.error "unused" }
      0x11 [97, 98, 99] [100, 101] rfl rfl rfl rfl rfl (by decide) (by decide) (by decide)
    rw [h]
    decide
  · decide

/-- Witness for C2 at a concrete one-character name and map. -/
theorem claim_C2_w :
    a2s_query "9.9.9.9" "27016"
      { bindErr := none, timeoutErr := none, connectErr := none, send1Err := none,
        recv1 := Except.ok ([0xFF, 0xFF, 0xFF, 0xFF, 0x49, 0x30] ++ [120] ++ [0] ++ [121] ++ [0]),
        send2Err := none, recv2 := Except.error "unused" } =
      ([A2S_INFO], some { A2SQueryResult.default with
        ip := "9.9.9.9", port := "27016", success := true,
        name := utf8Lossy [120], map_name := utf8Lossy [121], game := utf8Lossy [],
        server_type := String.mk [Char.ofNat 0], environment := String.mk [Char.ofNat 0],
        version := utf8Lossy [] }) :=
  claim_C2 "9.9.9.9" "27016"
    { bindErr := none, timeoutErr := none, connectErr := none, send1Err := none,
      recv1 := Except.ok ([0xFF, 0xFF, 0xFF, 0xFF, 0x49, 0x30] ++ [120] ++ [0] ++ [121] ++ [0]),
      send2Err := none, recv2 := Except.error "unused" }
    0x30 [120] [121] rfl rfl rfl rfl rfl (by decide) (by decide) (by decide)

/-! ## Claim C4: encrypt/decrypt round-trip -/

/-- Claim C4: for a 32-byte key and the 12-byte nonce drawn inside
encrypt_data, decrypting the output of the encryption function with the
same key yields exactly the original plaintext.  The external AES-256-GCM
cipher enters as the parameter `aead`; its documented AEAD correctness
(decryption inverts encryption for the same nonce and key, ciphertext
16 bytes longer than the plaintext, byte-valued output) is hypothesised
and discharged on a concrete cipher in the witness. -/
theorem claim_C4 (aead : AeadCipher) (nonce data key ct : List Nat)
    (hk : key.length = 32) (hn : nonce.length = 12)
    (hnb : ∀ b ∈ nonce, b < 256) (hcb : ∀ b ∈ ct, b < 256) (hct : 1 ≤ ct.length)
    (hu : isValidUtf8 data = true)
    (he : aead.encrypt nonce data = some ct)
    (hd : aead.decrypt nonce ct = some data) :
    encrypt_data aead nonce data key = Except.ok (base64Encode (nonce ++ ct)) ∧
    decrypt_data aead (base64Encode (nonce ++ ct)) key = Except.ok data := by
  have hbytes : ∀ b ∈ nonce ++ ct, b < 256 := by
    intro b hb
    rcases List.mem_append.mp hb with h | h
    · exact hnb b h
    · exact hcb b h
  have htake : (nonce ++ ct).take 12 = nonce := by
    rw [← hn]
    exact take_len_append _ _
  have hdrop : (nonce ++ ct).drop 12 = ct := by
    rw [← hn]
    exact drop_len_append _ _
  constructor
  · unfold encrypt_data
    rw [if_neg (not_not_intro hk), he]
  · unfold decrypt_data
    rw [if_neg (not_not_intro hk), base64_roundtrip (nonce ++ ct) hbytes]
    dsimp only
    rw [if_neg (by rw [List.length_append, hn]; omega)]
    rw [htake, hdrop, hd]
    dsimp only
    rw [if_pos hu]

/-- Witness for C4 on the toy cipher and a two-byte plaintext. -/
theorem claim_C4_w :
    encrypt_data toyAead (List.replicate 12 0) [104, 105] (List.replicate 32 0) =
      Except.ok (base64Encode (List.replicate 12 0 ++ ([104, 105] ++ List.replicate 16 0))) ∧
    decrypt_data toyAead (base64Encode (List.replicate 12 0 ++ ([104, 105] ++ List.replicate 16 0)))
      (List.replicate 32 0) = Except.ok [104, 105] :=
  claim_C4 toyAead (List.replicate 12 0) [104, 105] (List.replicate 32 0)
    ([104, 105] ++ List.replicate 16 0) (by decide) (by decide) (by decide) (by decide)
    (by decide) (by decide) (by decide) (by decide)

/-! ## Claim C5: device-mismatch is a hard error -/

/-- Claim C5: when a load decrypts and deserializes successfully but the
embedded device id differs from the one recomputed at load time, the
operation fails with the device-mismatch error — an Except.error carrying
the source's mismatch message, never a response holding the secret. -/
theorem claim_C5 (aead : AeadCipher) (sha : List Nat → List Nat) (serde : SerdeJson)
    (denv : DeviceEnv) (env : LoadEnv) (enc : List Char) (json : List Nat)
    (creds : StoredCredentials)
    (hp : env.pathErr = none) (hf : env.fileExists = true)
    (hr : env.readRes = Except.ok enc)
    (hd : decrypt_data aead enc (derive_key sha (get_device_id sha denv)) = Except.ok json)
    (hj : serde.fromJson json = Except.ok creds)
    (hm : creds.device_id ≠ get_device_id sha denv) :
    load_credentials aead sha serde denv env =
      Except.error "凭据与当前设备不匹配，可能已被复制。请重新登录。" := by
  unfold load_credentials
  rw [hp]
  dsimp only
  rw [if_neg (not_not_intro hf), hr]
  dsimp only
  rw [hd]
  dsimp only
  rw [hj]
  dsimp only
  rw [if_pos hm]

/-- Witness for C5: a concrete vault blob whose embedded device id differs
from the recomputed one. -/
theorem claim_C5_w :
    load_credentials toyAead toySha toySerde
      { machineId := some "m", fb := { home := false, fileContent := none, randomBytes := [] } }
      { pathErr := none, fileExists := true,
        readRes := Except.ok (base64Encode (List.replicate 28 0)) } =
      Except.error "凭据与当前设备不匹配，可能已被复制。请重新登录。" :=
  claim_C5 toyAead toySha toySerde
    { machineId := some "m", fb := { home := false, fileContent := none, randomBytes := [] } }
    { pathErr := none, fileExists := true,
      readRes := Except.ok (base64Encode (List.replicate 28 0)) }
    (base64Encode (List.replicate 28 0)) [] 
    { steamid64 := "76561198000000001", securecode := "code",
      device_id := "aaaaaaaaaaaaaaaaaaaaaaaaaaaaaaaa", created_at := 0 }
    rfl rfl rfl rfl rfl (by decide)

/-! ## Claim C7: missing vault file is not-found, not an error -/

/-- Claim C7: a load invoked when the credentials file does not exist
returns the structured not-found response (an Except.ok with success
false and no account id or secret), not an error. -/
theorem claim_C7 (aead : AeadCipher) (sha : List Nat → List Nat) (serde : SerdeJson)
    (denv : DeviceEnv) (env : LoadEnv)
    (hp : env.pathErr = none) (hf : env.fileExists = false) :
    load_credentials aead sha serde denv env =
      Except.ok { success := false, message := "未找到保存的凭据",
                  steamid64 := none, securecode := none } := by
  unfold load_credentials
  rw [hp]
  dsimp only
  rw [if_pos (by simp [hf])]

/-- Witness for C7 on a concrete environment with no stored file. -/
theorem claim_C7_w :
    load_credentials toyAead toySha toySerde
      { machineId := some "m", fb := { home := false, fileContent := none, randomBytes := [] } }
      { pathErr := none, fileExists := false, readRes := Except.error "unused" } =
      Except.ok { success := false, message := "未找到保存的凭据",
                  steamid64 := none, securecode := none } :=
  claim_C7 toyAead toySha toySerde
    { machineId := some "m", fb := { home := false, fileContent := none, randomBytes := [] } }
    { pathErr := none, fileExists := false, readRes := Except.error "unused" } rfl rfl

/-! ## Claim C8: save echoes the account id, never the secret -/

/-- Claim C8: every successful save returns a response whose steamid64
field is the supplied account id and whose securecode field is empty. -/
theorem claim_C8 (aead : AeadCipher) (sha : List Nat → List Nat) (serde : SerdeJson)
    (denv : DeviceEnv) (env : SaveEnv) (sid code : String) (resp : CredentialResponse)
    (h : save_credentials aead sha serde denv env sid code = Except.ok resp) :
    resp.steamid64 = some sid ∧ resp.securecode = none := by
  unfold save_credentials at h
  repeat'
    first
      | split at h
      | dsimp only at h
  all_goals
    first
      | exact Except.noConfusion h
      | (have hr := Except.ok.inj h
         subst hr
         exact ⟨rfl, rfl⟩)

/-- Witness for C8 on a concrete successful save. -/
theorem claim_C8_w :
    (CredentialResponse.mk true "凭据已安全保存" (some "76561198000000002") none).steamid64 =
      some "76561198000000002" ∧
    (CredentialResponse.mk true "凭据已安全保存" (some "76561198000000002") none).securecode =
      none :=
  claim_C8 toyAead toySha toySerde
    { machineId := some "m", fb := { home := false, fileContent := none, randomBytes := [] } }
    { nonce := List.replicate 12 0, created_at := 0, pathErr := none, writeErr := none }
    "76561198000000002" "sec" _ rfl

/-! ## Claim C6: the device id derivation -/

theorem mem_take_sub : ∀ (l : List Nat) (n : Nat) (x : Nat), x ∈ l.take n → x ∈ l
  | [], _, _, h => by simp at h
  | a :: t, 0, x, h => by simp at h
  | a :: t, n + 1, x, h => by
    rcases List.mem_cons.mp h with rfl | h2
    · exact List.mem_cons_self _ _
    · exact List.mem_cons_of_mem _ (mem_take_sub t n x h2)

theorem hexDigit_hex : ∀ n, n < 16 → isLowerHexDigit (hexDigitLower n) = true := by decide

theorem hexEncodeChars_length : ∀ bs : List Nat, (hexEncodeChars bs).length = 2 * bs.length
  | [] => rfl
  | b :: t => by
    simp only [hexEncodeChars, List.length_cons, hexEncodeChars_length t]
    omega

theorem hexEncodeChars_mem : ∀ (bs : List Nat), (∀ b ∈ bs, b < 256) →
    ∀ c ∈ hexEncodeChars bs, isLowerHexDigit c = true
  | [], _ => by simp [hexEncodeChars]
  | b :: t, h => by
    intro c hc
    rcases List.mem_cons.mp hc with rfl | hc2
    · exact hexDigit_hex _ (by have := h b (by simp); omega)
    · rcases List.mem_cons.mp hc2 with rfl | hc3
      · exact hexDigit_hex _ (by omega)
      · exact hexEncodeChars_mem t (fun x hx => h x (by simp [hx])) c hc3

theorem isHex32_hexEncode (bs : List Nat) (hl : bs.length = 16) (hb : ∀ b ∈ bs, b < 256) :
    isHex32Str (hexEncode bs) = true := by
  have h1 : (String.mk (hexEncodeChars bs)).length = 32 := by
    show (hexEncodeChars bs).length = 32
    rw [hexEncodeChars_length, hl]
  unfold isHex32Str hexEncode
  rw [h1]
  simp only [beq_self_eq_true, Bool.true_and, List.all_eq_true]
  intro c hc
  exact hexEncodeChars_mem bs hb c hc

theorem fallback_reuse (env : FallbackEnv) (content : String)
    (hh : env.home = true) (hf : env.fileContent = some content)
    (hl : (strBytes (rustTrim content)).length = 32) :
    get_or_create_fallback_device_id env = (rustTrim content, none) := by
  unfold get_or_create_fallback_device_id
  rw [if_pos hh, hf]
  dsimp only
  rw [if_pos hl]

/-- Claim C6 (amended): the machine-id branch yields a 32-character
lowercase hex string (given the documented shape of SHA-256 output); the
persisted fallback file content is reused verbatim (after trimming)
whenever its trimmed byte length is 32 — well-formedness as hex is NOT
checked — and otherwise, including when the file is absent, 16 fresh
random bytes are hex-encoded into a 32-character lowercase hex string
which is returned and, when a home directory exists, best-effort
persisted (no persistence attempt without a home directory). -/
theorem claim_C6 :
    (∀ (sha : List Nat → List Nat) (env : DeviceEnv) (mid : String),
      env.machineId = some mid →
      (∀ b ∈ sha (strBytes mid), b < 256) → (sha (strBytes mid)).length = 32 →
      isHex32Str (get_device_id sha env) = true) ∧
    (∀ (env : FallbackEnv) (content : String),
      env.home = true → env.fileContent = some content →
      (strBytes (rustTrim content)).length = 32 →
      get_or_create_fallback_device_id env = (rustTrim content, none)) ∧
    (∀ (env : FallbackEnv) (content : String),
      env.home = true → env.fileContent = some content →
      (strBytes (rustTrim content)).length ≠ 32 →
      env.randomBytes.length = 16 → (∀ b ∈ env.randomBytes, b < 256) →
      get_or_create_fallback_device_id env =
        (hexEncode env.randomBytes, some (hexEncode env.randomBytes)) ∧
      isHex32Str (hexEncode env.randomBytes) = true) ∧
    (∀ (env : FallbackEnv),
      env.home = true → env.fileContent = none →
      env.randomBytes.length = 16 → (∀ b ∈ env.randomBytes, b < 256) →
      get_or_create_fallback_device_id env =
        (hexEncode env.randomBytes, some (hexEncode env.randomBytes)) ∧
      isHex32Str (hexEncode env.randomBytes) = true) ∧
    (∀ (env : FallbackEnv),
      env.home = false → env.randomBytes.length = 16 → (∀ b ∈ env.randomBytes, b < 256) →
      get_or_create_fallback_device_id env = (hexEncode env.randomBytes, none) ∧
      isHex32Str (hexEncode env.randomBytes) = true) := by
  refine ⟨?_, fallback_reuse, ?_, ?_, ?_⟩
  · intro sha env mid hm hb hl
    unfold get_device_id
    rw [hm]
    exact isHex32_hexEncode _ (by rw [List.length_take, hl]; omega)
      (fun b hb2 => hb b (mem_take_sub _ _ _ hb2))
  · intro env content hh hf hne h16 hbb
    constructor
    · unfold get_or_create_fallback_device_id
      rw [if_pos hh, hf]
      dsimp only
      rw [if_neg hne]
    · exact isHex32_hexEncode _ h16 hbb
  · intro env hh hfc h16 hbb
    constructor
    · unfold get_or_create_fallback_device_id
      rw [if_pos hh, hfc]
    · exact isHex32_hexEncode _ h16 hbb
  · intro env hh h16 hbb
    constructor
    · unfold get_or_create_fallback_device_id
      rw [if_neg (by simp [hh])]
    · exact isHex32_hexEncode _ h16 hbb

/-- Claim C6 counterexample (to the claim as stated): a fallback file
holding 32 letter-Z characters — not a well-formed hex string — is reused
verbatim as the device id, so the operation does not always return
lowercase hex and the reuse condition checks only the length. -/
theorem claim_C6_cex :
    get_device_id toySha
      { machineId := none,
        fb := { home := true, fileContent := some "ZZZZZZZZZZZZZZZZZZZZZZZZZZZZZZZZ",
                randomBytes := List.replicate 16 0 } } =
      "ZZZZZZZZZZZZZZZZZZZZZZZZZZZZZZZZ" ∧
    isHex32Str "ZZZZZZZZZZZZZZZZZZZZZZZZZZZZZZZZ" = false := by
  constructor
  · decide
  · decide

/-- Witness for C6: a fresh random fallback id is generated, persisted and
is lowercase hex; the machine-id branch is lowercase hex. -/
theorem claim_C6_w :
    get_or_create_fallback_device_id
      { home := true, fileContent := none, randomBytes := List.replicate 16 171 } =
      (hexEncode (List.replicate 16 171), some (hexEncode (List.replicate 16 171))) ∧
    isHex32Str (hexEncode (List.replicate 16 171)) = true ∧
    isHex32Str (get_device_id toySha
      { machineId := some "mid",
        fb := { home := false, fileContent := none, randomBytes := [] } }) = true := by
  refine ⟨?_, ?_, ?_⟩
  · exact (claim_C6.2.2.2.1
      { home := true, fileContent := none, randomBytes := List.replicate 16 171 }
      rfl rfl (by decide) (by decide)).1
  · exact (claim_C6.2.2.2.1
      { home := true, fileContent := none, randomBytes := List.replicate 16 171 }
      rfl rfl (by decide) (by decide)).2
  · exact claim_C6.1 toySha _ "mid" rfl (by decide) (by decide)
